import Mathlib

set_option autoImplicit false

namespace GenAIWorkflow

/-! Shallow embedding of the workflow-graph parts of the GenAI Workflow Builder
frontend (store `validateWorkflow`, the WorkflowBuilder page validator and node
helpers, the chat modal pre-send checks, and the ChatService conversion,
progress-step and fallback logic).  JavaScript numbers are modelled as `Rat`,
JSON config objects as association lists, and absent (`undefined`/`null`)
fields as `Option`. -/

/-- A configuration value as stored in a node config object (JSON-like). -/
inductive ConfigValue where
  | str (s : String)
  | num (q : Rat)
  | bool (b : Bool)
  deriving DecidableEq

/-- A 2-D canvas position (`{x, y}`). -/
structure Position where
  x : Rat
  y : Rat
  deriving DecidableEq

/-- A React Flow node data object: `{label, config}`.  The label is optional
because `convertWorkflowFormat` substitutes `\x7b config: \x7b\x7d \x7d` (no label) for
missing data. -/
structure NodeData where
  label : Option String
  config : List (String × ConfigValue)
  deriving DecidableEq

/-- A React Flow node: id, type string, optional position and data. -/
structure Node where
  id : String
  type : String
  position : Option Position
  data : Option NodeData
  deriving DecidableEq

/-- A React Flow edge with source/target node ids and optional handles. -/
structure Edge where
  id : String
  source : String
  target : String
  sourceHandle : Option String
  targetHandle : Option String
  deriving DecidableEq

/-- A backend connection object (`\x7bsource, target, sourceHandle?, targetHandle?\x7d`). -/
structure Connection where
  source : String
  target : String
  sourceHandle : Option String
  targetHandle : Option String
  deriving DecidableEq

/-- A chat message kept in the store (`id`, `type`, `content`, `timestamp`). -/
structure ChatMessage where
  id : Nat
  type : String
  content : String
  timestamp : String
  deriving DecidableEq

/-- The `currentWorkflow` object of the zustand store (part_003). -/
structure Workflow where
  id : Option String
  name : String
  description : String
  nodes : List Node
  edges : List Edge
  isValid : Bool
  deriving DecidableEq

/-- The zustand workflow store state (part_003): current workflow, saved
workflows, and UI state. -/
structure StoreState where
  currentWorkflow : Workflow
  savedWorkflows : List Workflow
  selectedNode : Option Node
  isRunning : Bool
  chatMessages : List ChatMessage
  showChat : Bool
  deriving DecidableEq

/-- Helper constructing a bare node (no position or data), as the validators
only inspect `id` and `type`. -/
def mkNode (id type : String) : Node :=
  { id := id, type := type, position := none, data := none }

/-- Helper constructing an edge without handles. -/
def mkEdge (id source target : String) : Edge :=
  { id := id, source := source, target := target,
    sourceHandle := none, targetHandle := none }

/-- Helper wrapping a workflow into a store state with default UI fields. -/
def mkStore (w : Workflow) : StoreState :=
  { currentWorkflow := w, savedWorkflows := [], selectedNode := none,
    isRunning := false, chatMessages := [], showChat := false }

namespace WorkflowStore

/-- `validateWorkflow` from the zustand store (part_003 lines 117-140).  It
reads `nodes` and `edges` of the current workflow, requires the four node
types `user_query`, `knowledge_base`, `llm_engine`, `output` and at least 3
edges, writes the verdict into `currentWorkflow.isValid` via `set`, and
returns the verdict.  The `set` side effect is modelled by returning the
updated store state together with the boolean result. -/
def validateWorkflow (s : StoreState) : StoreState × Bool :=
  let nodes := s.currentWorkflow.nodes
  let edges := s.currentWorkflow.edges
  let hasUserQuery := nodes.any fun n => n.type == "user_query"
  let hasKnowledgeBase := nodes.any fun n => n.type == "knowledge_base"
  let hasLLM := nodes.any fun n => n.type == "llm_engine"
  let hasOutput := nodes.any fun n => n.type == "output"
  let isConnected := decide (edges.length ≥ 3)
  let isValid := hasUserQuery && hasKnowledgeBase && hasLLM && hasOutput && isConnected
  ({ s with currentWorkflow := { s.currentWorkflow with isValid := isValid } }, isValid)

/-- A store whose graph has the three spec-mandatory node types (`user_query`,
`llm_engine`, `output`), three edges, and no `knowledge_base` node. -/
def threeTypeState : StoreState :=
  mkStore
    { id := some ("wf1"), name := "w", description := "",
      nodes := [mkNode ("q1") ("user_query"), mkNode ("l1") ("llm_engine"),
                mkNode ("o1") ("output")],
      edges := [mkEdge ("e1") ("q1") ("l1"), mkEdge ("e2") ("l1") ("o1"),
                mkEdge ("e3") ("q1") ("o1")],
      isValid := false }

/-- A store whose graph contains all four node types and a directed edge cycle
between the `knowledge_base` node `k1` and the `llm_engine` node `l1`. -/
def cyclicState : StoreState :=
  mkStore
    { id := some ("wf2"), name := "w", description := "",
      nodes := [mkNode ("q1") ("user_query"), mkNode ("k1") ("knowledge_base"),
                mkNode ("l1") ("llm_engine"), mkNode ("o1") ("output")],
      edges := [mkEdge ("e1") ("k1") ("l1"), mkEdge ("e2") ("l1") ("k1"),
                mkEdge ("e3") ("q1") ("k1")],
      isValid := false }

/-- A store whose graph contains all four node types but only two edges. -/
def twoEdgeState : StoreState :=
  mkStore
    { id := some ("wf3"), name := "w", description := "",
      nodes := [mkNode ("q1") ("user_query"), mkNode ("k1") ("knowledge_base"),
                mkNode ("l1") ("llm_engine"), mkNode ("o1") ("output")],
      edges := [mkEdge ("e1") ("q1") ("k1"), mkEdge ("e2") ("k1") ("l1")],
      isValid := false }

/-- A store with an empty (hence invalid) graph whose `isValid` flag is
stale (`true`). -/
def staleValidState : StoreState :=
  mkStore
    { id := some ("wf4"), name := "w", description := "",
      nodes := [], edges := [], isValid := true }

end WorkflowStore

namespace WorkflowBuilder

/-- `validateWorkflow` from `WorkflowBuilder.jsx` (lines 291-300): requires a
`userQuery` node, an `output` node and at least one edge.  The
`setIsValidWorkflow` side effect stores exactly the returned verdict, so the
function is modelled by its boolean result. -/
def validateWorkflow (nodes : List Node) (edges : List Edge) : Bool :=
  let hasUserQuery := nodes.any fun node => node.type == "userQuery"
  let hasOutput := nodes.any fun node => node.type == "output"
  let hasConnections := decide (edges.length > 0)
  hasUserQuery && hasOutput && hasConnections

/-- `getNodeLabel` from `WorkflowBuilder.jsx`. -/
def getNodeLabel (type : String) : String :=
  if type == "userQuery" then "User Query"
  else if type == "knowledgeBase" then "Knowledge Base"
  else if type == "llmEngine" then "LLM Engine"
  else if type == "output" then "Output"
  else "Unknown"

/-- `getDefaultConfig` from `WorkflowBuilder.jsx` (lines 253-267): the
per-type default configuration objects (`configs[type] || \x7b\x7d`). -/
def getDefaultConfig (type : String) : List (String × ConfigValue) :=
  if type == "userQuery" then
    [(("placeholder"), ConfigValue.str ("Enter your question..."))]
  else if type == "knowledgeBase" then
    [(("maxResults"), ConfigValue.num 5),
     (("similarityThreshold"), ConfigValue.num 0.7)]
  else if type == "llmEngine" then
    [(("model"), ConfigValue.str ("gpt-3.5-turbo")),
     (("temperature"), ConfigValue.num 0.7),
     (("maxTokens"), ConfigValue.num 1000),
     (("enableWebSearch"), ConfigValue.bool false),
     (("systemPrompt"), ConfigValue.str (""))]
  else if type == "output" then
    [(("format"), ConfigValue.str ("text")),
     (("showSources"), ConfigValue.bool true),
     (("enableFollowUp"), ConfigValue.bool true)]
  else []

/-- `addNode` from `WorkflowBuilder.jsx` (lines 125-140): builds the new node
added to the canvas.  The `Date.now()`-derived id and the drop/random position
are passed explicitly. -/
def addNode (type : String) (id : String) (position : Position) : Node :=
  { id := id, type := type, position := some position,
    data := some { label := some (getNodeLabel type),
                   config := getDefaultConfig type } }

/-- The node ids of the nodes being deleted (`nodesToDelete.map(n => n.id)`). -/
def deletedNodeIds (nodesToDelete : List Node) : List String :=
  nodesToDelete.map fun n => n.id

/-- The node part of `onNodesDelete` from `WorkflowBuilder.jsx` (lines
143-150): keep the nodes whose id matches none of the deleted nodes. -/
def onNodesDeleteNodes (nodesToDelete : List Node) (nds : List Node) : List Node :=
  nds.filter fun node => !(nodesToDelete.any fun n => n.id == node.id)

/-- The edge part of `onNodesDelete` from `WorkflowBuilder.jsx` (lines
143-150): keep the edges whose source and target are both not among the
deleted node ids. -/
def onNodesDeleteEdges (nodesToDelete : List Node) (eds : List Edge) : List Edge :=
  eds.filter fun edge =>
    !((deletedNodeIds nodesToDelete).contains edge.source) &&
    !((deletedNodeIds nodesToDelete).contains edge.target)

end WorkflowBuilder

namespace ChatModal

/-- The pre-send validation gates of `handleSendMessage` in the chat modal
(part_010 lines 28-55): the message is sent only when every one of the four
required node types is present and the workflow has at least 3 edges; either
early return is modelled as `false`. -/
def handleSendMessageChecks (w : Workflow) : Bool :=
  let nodeTypes := w.nodes.map fun n => n.type
  let requiredTypes : List String :=
    [("user_query"), ("knowledge_base"), ("llm_engine"), ("output")]
  let hasAllTypes := requiredTypes.all fun type => nodeTypes.contains type
  hasAllTypes && !(decide (w.edges.length < 3))

end ChatModal

namespace ChatService

/-- A backend-format node as produced by `convertWorkflowFormat`: position and
data are always present (defaults substituted). -/
structure BackendNode where
  id : String
  type : String
  position : Position
  data : NodeData
  deriving DecidableEq

/-- A backend-format workflow (`\x7bnodes, connections\x7d`). -/
structure BackendWorkflow where
  nodes : List BackendNode
  connections : List Connection
  deriving DecidableEq

/-- A progress step descriptor (`\x7btitle, description\x7d`). -/
structure Step where
  title : String
  description : String
  deriving DecidableEq

/-- `getWorkflowSteps` from `ChatService` (part_006 lines 74-91): the fixed
"Processing Query" step, a knowledge-base step when a `knowledge_base` node is
present, a generation step when an `llm_engine` node is present, and the fixed
"Finalizing Output" step. -/
def getWorkflowSteps (workflow : BackendWorkflow) : List Step :=
  let steps : List Step :=
    [{ title := "Processing Query", description := "Analyzing user input" }]
  let steps :=
    if workflow.nodes.any fun n => n.type == "knowledge_base" then
      steps ++ [{ title := "Searching Knowledge Base",
                  description := "Finding relevant documents" }]
    else steps
  let steps :=
    if workflow.nodes.any fun n => n.type == "llm_engine" then
      steps ++ [{ title := "Generating Response",
                  description := "AI is processing your request" }]
    else steps
  steps ++ [{ title := "Finalizing Output", description := "Preparing response" }]

/-- The frontend workflow object passed to `convertWorkflowFormat`: both
fields may be absent. -/
structure FrontWorkflow where
  nodes : Option (List Node)
  connections : Option (List Connection)
  deriving DecidableEq

/-- The `nodeTypeMap` object lookup inside `convertWorkflowFormat` (part_006
lines 126-131). -/
def nodeTypeMap (t : String) : Option String :=
  if t == "userQuery" then some ("user_query")
  else if t == "knowledgeBase" then some ("knowledge_base")
  else if t == "llmEngine" then some ("llm_engine")
  else if t == "output" then some ("output")
  else none

/-- The default three-node chain returned by `convertWorkflowFormat` when the
input workflow is missing or lacks nodes (part_006 lines 95-123). -/
def defaultBackendWorkflow : BackendWorkflow :=
  { nodes :=
      [{ id := "1", type := "user_query",
         position := { x := 100, y := 100 },
         data := { label := none, config := [] } },
       { id := "2", type := "llm_engine",
         position := { x := 200, y := 100 },
         data := { label := none,
                   config := [(("model"), ConfigValue.str ("gpt-3.5-turbo")),
                              (("temperature"), ConfigValue.num 0.7),
                              (("max_tokens"), ConfigValue.num 1000)] } },
       { id := "3", type := "output",
         position := { x := 300, y := 100 },
         data := { label := none, config := [] } }],
    connections :=
      [{ source := "1", target := "2", sourceHandle := none, targetHandle := none },
       { source := "2", target := "3", sourceHandle := none, targetHandle := none }] }

/-- `convertWorkflowFormat` from `ChatService` (part_006 lines 93-144):
`null`/`undefined` input or a missing `nodes` field yields the default chain;
otherwise each node is converted with the type map (unknown types pass
through), a default position `\x7bx:0, y:0\x7d` and default data `\x7bconfig:\x7b\x7d\x7d`, and
missing connections become `[]`. -/
def convertWorkflowFormat (workflow : Option FrontWorkflow) : BackendWorkflow :=
  match workflow with
  | none => defaultBackendWorkflow
  | some w =>
    match w.nodes with
    | none => defaultBackendWorkflow
    | some ns =>
      { nodes := ns.map fun node =>
          { id := node.id,
            type := (nodeTypeMap node.type).getD node.type,
            position := node.position.getD { x := 0, y := 0 },
            data := node.data.getD { label := none, config := [] } },
        connections := w.connections.getD [] }

/-- The node-type translation as the claim words it: `userQuery`,
`knowledgeBase`, `llmEngine`, `output` map to their snake_case backend names
and every other type string passes through unchanged.  Reference definition
for the refinement statement of the conversion claim. -/
def mapNodeTypeSpec (t : String) : String :=
  if t == "userQuery" then "user_query"
  else if t == "knowledgeBase" then "knowledge_base"
  else if t == "llmEngine" then "llm_engine"
  else if t == "output" then "output"
  else t

/-- The data object of a successful `POST /api/workflow/execute` response as
read by `sendMessage`: each field may be absent. -/
structure ApiResponseData where
  response : Option String
  sources : Option (List String)
  execution_time_ms : Option Rat
  deriving DecidableEq

/-- The value `sendMessage` resolves with (`\x7bcontent, sources, executionTime\x7d`). -/
structure ChatResult where
  content : String
  sources : List String
  executionTime : Rat
  deriving DecidableEq

/-- `generateFallbackResponse` from `ChatService` (part_006 lines 146-155):
one of four canned strings mentioning the message, selected by
`Math.floor(Math.random() * responses.length)`, modelled by `rand % 4`. -/
def generateFallbackResponse (message : String) (rand : Nat) : String :=
  let responses : List String :=
    [("I understand you\x27re asking about \"" ++ message ++
        "\". Based on the workflow configuration, I would process this through the knowledge base and generate a comprehensive response."),
     ("Thank you for your question about \"" ++ message ++
        "\". The AI workflow would typically search relevant documents and provide contextual information."),
     ("Your query \"" ++ message ++
        "\" has been processed through the configured workflow. In a full implementation, this would involve document retrieval and AI-powered response generation."),
     ("I\x27ve received your message: \"" ++ message ++
        "\". The workflow would normally execute knowledge base search, LLM processing, and formatted output generation.")]
  responses.getD (rand % responses.length) ("")

/-- `sendMessage` from `ChatService` (part_006 lines 16-72), restricted to the
value it resolves with.  The outcome of the `POST /api/workflow/execute` call
is passed explicitly: `Except.ok` carries the response data, `Except.error`
models any thrown error (network failure, timeout, HTTP error status).  On
success the response fields are defaulted; on ANY error the catch block
resolves with a fallback result built from `generateFallbackResponse`, the
fixed sources `["Demo Knowledge Base"]` and the fixed time `1.2`. -/
def sendMessage (message : String) (apiOutcome : Except String ApiResponseData)
    (rand : Nat) : ChatResult :=
  match apiOutcome with
  | Except.ok data =>
      { content := data.response.getD
          ("I received your message and processed it through the workflow."),
        sources := data.sources.getD [],
        executionTime := data.execution_time_ms.getD 0 }
  | Except.error _ =>
      { content := generateFallbackResponse message rand,
        sources := [("Demo Knowledge Base")],
        executionTime := 1.2 }

end ChatService

end GenAIWorkflow

namespace GenAIWorkflow.WorkflowStore

/-- The verdict computed by the store validator, spelled out. -/
theorem validateWorkflow_snd (s : StoreState) :
    (validateWorkflow s).2 =
      ((s.currentWorkflow.nodes.any fun n => n.type == "user_query") &&
       (s.currentWorkflow.nodes.any fun n => n.type == "knowledge_base") &&
       (s.currentWorkflow.nodes.any fun n => n.type == "llm_engine") &&
       (s.currentWorkflow.nodes.any fun n => n.type == "output") &&
       decide (s.currentWorkflow.edges.length ≥ 3)) := rfl

/-- The state returned by the store validator: the input state with only the
`isValid` flag replaced by the computed verdict. -/
theorem validateWorkflow_fst (s : StoreState) :
    (validateWorkflow s).1 =
      { s with currentWorkflow :=
          { s.currentWorkflow with isValid := (validateWorkflow s).2 } } := rfl

/-- Propositional characterization of the store validator verdict. -/
theorem validateWorkflow_eq_true_iff (s : StoreState) :
    (validateWorkflow s).2 = true ↔
      ((∃ n ∈ s.currentWorkflow.nodes, n.type = "user_query") ∧
       (∃ n ∈ s.currentWorkflow.nodes, n.type = "knowledge_base") ∧
       (∃ n ∈ s.currentWorkflow.nodes, n.type = "llm_engine") ∧
       (∃ n ∈ s.currentWorkflow.nodes, n.type = "output") ∧
       3 ≤ s.currentWorkflow.edges.length) := by
  rw [validateWorkflow_snd]
  simp [List.any_eq_true, and_assoc]

/-- C1 (amended): the store validator succeeds exactly when the graph contains
all FOUR node types — `user_query`, `knowledge_base`, `llm_engine`, `output` —
and at least 3 edges; in particular a KnowledgeBase node IS required. -/
theorem validateWorkflow_requires_knowledge_base (s : StoreState) :
    (validateWorkflow s).2 = true ↔
      ((∃ n ∈ s.currentWorkflow.nodes, n.type = "user_query") ∧
       (∃ n ∈ s.currentWorkflow.nodes, n.type = "knowledge_base") ∧
       (∃ n ∈ s.currentWorkflow.nodes, n.type = "llm_engine") ∧
       (∃ n ∈ s.currentWorkflow.nodes, n.type = "output") ∧
       3 ≤ s.currentWorkflow.edges.length) :=
  validateWorkflow_eq_true_iff s

/-- C1 counterexample: a graph with the three spec-mandatory node types, three
edges and no KnowledgeBase node is reported INVALID by the store validator,
refuting the claim that such a graph is reported valid. -/
theorem validateWorkflow_three_types_rejected :
    (∃ n ∈ threeTypeState.currentWorkflow.nodes, n.type = "user_query") ∧
    (∃ n ∈ threeTypeState.currentWorkflow.nodes, n.type = "llm_engine") ∧
    (∃ n ∈ threeTypeState.currentWorkflow.nodes, n.type = "output") ∧
    (¬∃ n ∈ threeTypeState.currentWorkflow.nodes, n.type = "knowledge_base") ∧
    3 ≤ threeTypeState.currentWorkflow.edges.length ∧
    (validateWorkflow threeTypeState).2 = false := by decide

/-- C2 (amended): validation terminates on every graph (it is a total
function of the snapshot) but performs no cycle detection: whenever the four
node types are present and there are at least 3 edges, the graph is reported
valid even if its edge set contains a directed 2-cycle. -/
theorem validateWorkflow_accepts_cycles (s : StoreState) (e e' : Edge)
    (he : e ∈ s.currentWorkflow.edges) (he' : e' ∈ s.currentWorkflow.edges)
    (hc1 : e.target = e'.source) (hc2 : e'.target = e.source)
    (h1 : ∃ n ∈ s.currentWorkflow.nodes, n.type = "user_query")
    (h2 : ∃ n ∈ s.currentWorkflow.nodes, n.type = "knowledge_base")
    (h3 : ∃ n ∈ s.currentWorkflow.nodes, n.type = "llm_engine")
    (h4 : ∃ n ∈ s.currentWorkflow.nodes, n.type = "output")
    (h5 : 3 ≤ s.currentWorkflow.edges.length) :
    (validateWorkflow s).2 = true :=
  (validateWorkflow_eq_true_iff s).mpr ⟨h1, h2, h3, h4, h5⟩

/-- C2 witness: the theorem applied to the concrete cyclic graph. -/
theorem validateWorkflow_accepts_cycles_witness :
    (validateWorkflow cyclicState).2 = true :=
  validateWorkflow_accepts_cycles cyclicState
    (mkEdge ("e1") ("k1") ("l1")) (mkEdge ("e2") ("l1") ("k1"))
    (by decide) (by decide) (by decide) (by decide)
    (by decide) (by decide) (by decide) (by decide) (by decide)

/-- C2 counterexample: a graph whose edges form a directed cycle between the
KnowledgeBase node `k1` and the LLMEngine node `l1` is reported VALID (no
CycleDetected error exists in this code), refuting the claim. -/
theorem validateWorkflow_cycle_reported_valid :
    (mkEdge ("e1") ("k1") ("l1")) ∈ cyclicState.currentWorkflow.edges ∧
    (mkEdge ("e2") ("l1") ("k1")) ∈ cyclicState.currentWorkflow.edges ∧
    (∃ n ∈ cyclicState.currentWorkflow.nodes,
      n.id = "k1" ∧ n.type = "knowledge_base") ∧
    (∃ n ∈ cyclicState.currentWorkflow.nodes,
      n.id = "l1" ∧ n.type = "llm_engine") ∧
    (validateWorkflow cyclicState).2 = true := by decide

/-- C4 (amended): with the validator's four required node types present, the
connectivity verdict is exactly `edges.length ≥ 3` (four required nodes minus
one), not `edges.length ≥ 2`. -/
theorem validateWorkflow_connectivity_threshold (s : StoreState)
    (h1 : ∃ n ∈ s.currentWorkflow.nodes, n.type = "user_query")
    (h2 : ∃ n ∈ s.currentWorkflow.nodes, n.type = "knowledge_base")
    (h3 : ∃ n ∈ s.currentWorkflow.nodes, n.type = "llm_engine")
    (h4 : ∃ n ∈ s.currentWorkflow.nodes, n.type = "output") :
    ((validateWorkflow s).2 = true ↔ 3 ≤ s.currentWorkflow.edges.length) := by
  rw [validateWorkflow_eq_true_iff]
  tauto

/-- C4 witness: the theorem applied to the concrete two-edge graph. -/
theorem validateWorkflow_connectivity_threshold_witness :
    ((validateWorkflow twoEdgeState).2 = true ↔
      3 ≤ twoEdgeState.currentWorkflow.edges.length) :=
  validateWorkflow_connectivity_threshold twoEdgeState
    (by decide) (by decide) (by decide) (by decide)

/-- C4 counterexample: a graph with all four node types and exactly 2 edges —
which the claim says passes the connectivity check (2 ≥ mandatory − 1) and is
therefore accepted — is reported invalid by the validator. -/
theorem validateWorkflow_two_edges_rejected :
    (∃ n ∈ twoEdgeState.currentWorkflow.nodes, n.type = "user_query") ∧
    (∃ n ∈ twoEdgeState.currentWorkflow.nodes, n.type = "knowledge_base") ∧
    (∃ n ∈ twoEdgeState.currentWorkflow.nodes, n.type = "llm_engine") ∧
    (∃ n ∈ twoEdgeState.currentWorkflow.nodes, n.type = "output") ∧
    twoEdgeState.currentWorkflow.edges.length = 2 ∧
    (validateWorkflow twoEdgeState).2 = false := by decide

/-- C5 (amended): the store validator is a pure function of the snapshot
making no external calls, but it is NOT side-effect free on the store: it
writes the computed verdict into `currentWorkflow.isValid`; every other store
field (nodes, edges, workflow id/name/description, saved workflows, selected
node, running flag, chat messages, chat visibility) is unchanged. -/
theorem validateWorkflow_frame (s : StoreState) :
    (validateWorkflow s).1.currentWorkflow.nodes = s.currentWorkflow.nodes ∧
    (validateWorkflow s).1.currentWorkflow.edges = s.currentWorkflow.edges ∧
    (validateWorkflow s).1.currentWorkflow.id = s.currentWorkflow.id ∧
    (validateWorkflow s).1.currentWorkflow.name = s.currentWorkflow.name ∧
    (validateWorkflow s).1.currentWorkflow.description =
      s.currentWorkflow.description ∧
    (validateWorkflow s).1.savedWorkflows = s.savedWorkflows ∧
    (validateWorkflow s).1.selectedNode = s.selectedNode ∧
    (validateWorkflow s).1.isRunning = s.isRunning ∧
    (validateWorkflow s).1.chatMessages = s.chatMessages ∧
    (validateWorkflow s).1.showChat = s.showChat ∧
    (validateWorkflow s).1.currentWorkflow.isValid = (validateWorkflow s).2 :=
  ⟨rfl, rfl, rfl, rfl, rfl, rfl, rfl, rfl, rfl, rfl, rfl⟩

/-- C5 counterexample: on a store holding a stale `isValid = true` flag over
an empty graph, calling the validator changes the store state, refuting the
claim that every field of the workflow state is unchanged by the call. -/
theorem validateWorkflow_mutates_state :
    (validateWorkflow staleValidState).1 ≠ staleValidState := by decide

/-- C6: calling the store validator twice with the graph unmodified in
between returns the identical result both times — the second call yields the
same verdict and the same store state as the first. -/
theorem validateWorkflow_idempotent (s : StoreState) :
    validateWorkflow (validateWorkflow s).1 = validateWorkflow s := by
  obtain ⟨⟨i, nm, d, ns, es, v⟩, sw, sel, ir, cm, sc⟩ := s
  rfl

end GenAIWorkflow.WorkflowStore

namespace GenAIWorkflow.ChatService

/-- C3 (amended): on ANY failure of the execute call, `sendMessage` resolves
with a fabricated fallback success — canned content mentioning the query, the
fixed sources `["Demo Knowledge Base"]` and the fixed execution time `1.2` —
rather than a structured error; the result type carries no error indication at
all. -/
theorem sendMessage_failure_fabricates_success (message err : String) (rand : Nat) :
    sendMessage message (Except.error err) rand =
      { content := generateFallbackResponse message rand,
        sources := [("Demo Knowledge Base")],
        executionTime := 1.2 } := rfl

/-- C3 counterexample: a failed execution produces a result that is EQUAL to
one a successful execution can produce, so the caller receives an ambiguous,
fabricated success on failure, refuting the claim. -/
theorem sendMessage_failure_ambiguous :
    sendMessage ("What is AI?") (Except.error ("Network Error")) 0 =
      sendMessage ("What is AI?")
        (Except.ok
          { response := some (generateFallbackResponse ("What is AI?") 0),
            sources := some [("Demo Knowledge Base")],
            execution_time_ms := some 1.2 }) 0 := rfl

/-- C7: the progress step list is exactly the fixed "Processing Query" step,
one knowledge-base step iff a `knowledge_base` node is present, one generation
step iff an `llm_engine` node is present, and the fixed "Finalizing Output"
step; the right-hand side depends only on which node types are present in the
graph and on nothing else. -/
theorem getWorkflowSteps_projection (w : BackendWorkflow) :
    getWorkflowSteps w =
      [{ title := "Processing Query", description := "Analyzing user input" }] ++
      (if ∃ n ∈ w.nodes, n.type = "knowledge_base" then
        [{ title := "Searching Knowledge Base",
           description := "Finding relevant documents" }]
      else []) ++
      (if ∃ n ∈ w.nodes, n.type = "llm_engine" then
        [{ title := "Generating Response",
           description := "AI is processing your request" }]
      else []) ++
      [{ title := "Finalizing Output", description := "Preparing response" }] := by
  by_cases hkb : ∃ n ∈ w.nodes, n.type = "knowledge_base" <;>
    by_cases hllm : ∃ n ∈ w.nodes, n.type = "llm_engine" <;>
    simp [getWorkflowSteps, hkb, hllm, List.any_eq_true]

/-- The `nodeTypeMap` lookup with passthrough equals the claim-side type
translation. -/
theorem nodeTypeMap_getD (t : String) : (nodeTypeMap t).getD t = mapNodeTypeSpec t := by
  by_cases h1 : t = "userQuery" <;> by_cases h2 : t = "knowledgeBase" <;>
    by_cases h3 : t = "llmEngine" <;> by_cases h4 : t = "output" <;>
    simp [nodeTypeMap, mapNodeTypeSpec, h1, h2, h3, h4]

/-- C10: `convertWorkflowFormat` is total on its public interface.  A missing
workflow or missing `nodes` field yields the fixed default chain (`user_query`
id "1", `llm_engine` id "2", `output` id "3", connections 1→2 and 2→3);
otherwise node count and ids are preserved, the four known type names are
translated and all others pass through, a missing position becomes `(0, 0)`,
and missing connections become `[]`. -/
theorem convertWorkflowFormat_total_spec (workflow : Option FrontWorkflow) :
    ((workflow = none ∨ ∃ w, workflow = some w ∧ w.nodes = none) →
      ((convertWorkflowFormat workflow).nodes.map (fun n => (n.id, n.type)) =
          [(("1"), ("user_query")), (("2"), ("llm_engine")), (("3"), ("output"))] ∧
       (convertWorkflowFormat workflow).connections.map (fun c => (c.source, c.target)) =
          [(("1"), ("2")), (("2"), ("3"))])) ∧
    (∀ w ns, workflow = some w → w.nodes = some ns →
      ((convertWorkflowFormat workflow).nodes.length = ns.length ∧
       (convertWorkflowFormat workflow).nodes.map (fun n => n.id) =
          ns.map (fun n => n.id) ∧
       (convertWorkflowFormat workflow).nodes.map (fun n => n.type) =
          ns.map (fun n => mapNodeTypeSpec n.type) ∧
       (convertWorkflowFormat workflow).nodes.map (fun n => n.position) =
          ns.map (fun n => n.position.getD { x := 0, y := 0 }) ∧
       (convertWorkflowFormat workflow).connections = w.connections.getD [])) := by
  constructor
  · rintro (rfl | ⟨w, rfl, hn⟩)
    · exact ⟨rfl, rfl⟩
    · rw [convertWorkflowFormat, hn]
      exact ⟨rfl, rfl⟩
  · rintro w ns rfl hn
    rw [convertWorkflowFormat, hn]
    refine ⟨by simp, by simp, ?_, by simp⟩
    simp [nodeTypeMap_getD]

/-- C10 witness: the theorem applied to a missing workflow. -/
theorem convertWorkflowFormat_total_spec_witness :
    (convertWorkflowFormat none).nodes.map (fun n => (n.id, n.type)) =
        [(("1"), ("user_query")), (("2"), ("llm_engine")), (("3"), ("output"))] ∧
    (convertWorkflowFormat none).connections.map (fun c => (c.source, c.target)) =
        [(("1"), ("2")), (("2"), ("3"))] :=
  (convertWorkflowFormat_total_spec none).1 (Or.inl rfl)

end GenAIWorkflow.ChatService

namespace GenAIWorkflow.WorkflowBuilder

/-- C8: deleting a set of nodes cascades to incident edges.  After
`onNodesDelete`, no remaining edge has its source or target among the deleted
node ids, and every edge whose two endpoints both survive is kept unchanged in
the edge list. -/
theorem onNodesDelete_cascades (nodesToDelete : List Node) (eds : List Edge) :
    (∀ e ∈ onNodesDeleteEdges nodesToDelete eds,
        e.source ∉ deletedNodeIds nodesToDelete ∧
        e.target ∉ deletedNodeIds nodesToDelete) ∧
    (∀ e ∈ eds,
        e.source ∉ deletedNodeIds nodesToDelete →
        e.target ∉ deletedNodeIds nodesToDelete →
        e ∈ onNodesDeleteEdges nodesToDelete eds) := by
  constructor
  · intro e he
    rw [onNodesDeleteEdges, List.mem_filter] at he
    have h := he.2
    simp at h
    exact h
  · intro e he hs ht
    rw [onNodesDeleteEdges, List.mem_filter]
    refine ⟨he, ?_⟩
    simp
    exact ⟨hs, ht⟩

/-- C8 witness: the theorem applied to a concrete deletion in which the edge
`a → c` survives the deletion of node `b`. -/
theorem onNodesDelete_cascades_witness :
    mkEdge ("e1") ("a") ("c") ∈
      onNodesDeleteEdges [mkNode ("b") ("llm_engine")]
        [mkEdge ("e1") ("a") ("c")] :=
  (onNodesDelete_cascades [mkNode ("b") ("llm_engine")]
      [mkEdge ("e1") ("a") ("c")]).2
    (mkEdge ("e1") ("a") ("c")) (by decide) (by decide) (by decide)

/-- C9: a newly created `knowledgeBase` node whose retrieval options were not
set by the user carries the default configuration `maxResults = 5` and
`similarityThreshold = 0.7`. -/
theorem addNode_knowledgeBase_defaults (id : String) (position : Position) :
    ∃ d, (addNode ("knowledgeBase") id position).data = some d ∧
      List.lookup ("maxResults") d.config = some (ConfigValue.num 5) ∧
      List.lookup ("similarityThreshold") d.config =
        some (ConfigValue.num 0.7) :=
  ⟨_, rfl, rfl, rfl⟩

end GenAIWorkflow.WorkflowBuilder
